import Mathlib

/-!
Verification development for the NotifyApp alerting/notification platform.

The TypeScript sources are shallowly embedded: entity classes become
structures, in-place mutation becomes explicit state passing, timestamps
(JS Date / Date.now()) become Int milliseconds, fallible code returns
Except, and JS number arithmetic in the retry computation is modelled
over the rationals.
-/

/-- Alert severity enum, from models/enums.ts (string values info/warning/critical). -/
inductive AlertSeverity where
  | info
  | warning
  | critical
deriving DecidableEq, Repr

/-- Alert status enum, from models/enums.ts. -/
inductive AlertStatus where
  | active
  | expired
  | archived
deriving DecidableEq, Repr

/-- Visibility type enum, from models/enums.ts. -/
inductive VisibilityType where
  | organization
  | team
  | user
deriving DecidableEq, Repr

/-- Delivery type enum, from models/enums.ts. -/
inductive DeliveryType where
  | inApp
  | email
  | sms
deriving DecidableEq, Repr

/-- Visibility configuration, from models/Alert.ts. -/
structure VisibilityConfig where
  type : VisibilityType
  targetIds : List String
deriving DecidableEq, Repr

/-- The Alert entity state, from entities/Alert.ts (class AlertEntity fields).
Dates are Int milliseconds. -/
structure AlertEntity where
  id : String
  title : String
  message : String
  severity : AlertSeverity
  deliveryType : DeliveryType
  visibility : VisibilityConfig
  startTime : Int
  expiryTime : Int
  reminderEnabled : Bool
  reminderFrequency : Int
  createdBy : String
  createdAt : Int
  status : AlertStatus
deriving DecidableEq, Repr

/-- Update patch, from models/Alert.ts UpdateAlertRequest (all fields optional). -/
structure UpdateAlertRequest where
  title : Option String := none
  message : Option String := none
  severity : Option AlertSeverity := none
  deliveryType : Option DeliveryType := none
  visibility : Option VisibilityConfig := none
  startTime : Option Int := none
  expiryTime : Option Int := none
  reminderEnabled : Option Bool := none
  reminderFrequency : Option Int := none
  status : Option AlertStatus := none
deriving DecidableEq, Repr

/-- JS String.prototype.trim over the character data: strip whitespace from
both ends. -/
def jsTrim (s : String) : String :=
  ⟨((s.data.dropWhile Char.isWhitespace).reverse.dropWhile Char.isWhitespace).reverse⟩

/-- AlertEntity.validateVisibilityConfig (entities/Alert.ts lines 167-184).
The enum-membership check on the type always passes for a typed value.
Organization visibility requires no target ids; other types require a
non-empty list of non-blank ids. -/
def validateVisibilityConfig (v : VisibilityConfig) : Except String Unit :=
  if v.type = VisibilityType.organization then Except.ok ()
  else if v.targetIds.isEmpty then
    Except.error ("At least one target ID is required for visibility type")
  else if v.targetIds.any (fun i => (jsTrim i).length = 0) then
    Except.error ("All target IDs must be non-empty strings")
  else Except.ok ()

/-- AlertEntity.validateTimeConstraints (entities/Alert.ts lines 186-196),
with the merged start/expiry values and the current clock as arguments. -/
def validateTimeConstraints (start expiry now : Int) : Except String Unit :=
  if expiry ≤ now then Except.error ("Alert expiry time must be in the future")
  else if start ≥ expiry then Except.error ("Alert start time must be before expiry time")
  else Except.ok ()

/-- AlertEntity.validateUpdateRequest (entities/Alert.ts lines 133-165).
Enum-membership checks on typed severity/deliveryType/status values always
pass; the string, visibility and frequency checks are embedded. -/
def validateUpdateRequest (r : UpdateAlertRequest) : Except String Unit := do
  if let some t := r.title then
    if (jsTrim t).length = 0 then throw ("Alert title cannot be empty")
    if (jsTrim t).length > 255 then throw ("Alert title must be 255 characters or less")
  if let some m := r.message then
    if (jsTrim m).length = 0 then throw ("Alert message cannot be empty")
    if (jsTrim m).length > 5000 then throw ("Alert message must be 5000 characters or less")
  if let some v := r.visibility then
    validateVisibilityConfig v
  if let some f := r.reminderFrequency then
    if f ≤ 0 then throw ("Reminder frequency must be greater than 0")
  pure ()

/-- The field-merge step of AlertEntity.update (entities/Alert.ts lines 52-81):
every provided field is assigned (strings trimmed), including status. -/
def applyUpdate (a : AlertEntity) (r : UpdateAlertRequest) : AlertEntity :=
  { a with
    title := (r.title.map jsTrim).getD a.title
    message := (r.message.map jsTrim).getD a.message
    severity := r.severity.getD a.severity
    deliveryType := r.deliveryType.getD a.deliveryType
    visibility := r.visibility.getD a.visibility
    startTime := r.startTime.getD a.startTime
    expiryTime := r.expiryTime.getD a.expiryTime
    reminderEnabled := r.reminderEnabled.getD a.reminderEnabled
    reminderFrequency := r.reminderFrequency.getD a.reminderFrequency
    status := r.status.getD a.status }

/-- AlertEntity.update (entities/Alert.ts lines 49-85). The source first runs
validateUpdateRequest, then assigns every provided field in place, and only
then calls validateTimeConstraints; a throw from the time validation
therefore leaves the entity with the already-assigned fields. The pair
returned is (thrown error or ok, the entity state after the call). -/
def AlertEntity.update (a : AlertEntity) (r : UpdateAlertRequest) (now : Int) :
    Except String Unit × AlertEntity :=
  match validateUpdateRequest r with
  | Except.error e => (Except.error e, a)
  | Except.ok _ =>
    let a2 := applyUpdate a r
    match validateTimeConstraints a2.startTime a2.expiryTime now with
    | Except.error e => (Except.error e, a2)
    | Except.ok _ => (Except.ok (), a2)

/-- AlertEntity.archive (entities/Alert.ts lines 87-89): unconditionally sets
status to archived. -/
def AlertEntity.archive (a : AlertEntity) : AlertEntity :=
  { a with status := AlertStatus.archived }

/-- AlertEntity.markExpired (entities/Alert.ts lines 101-103): unconditionally
sets status to expired. -/
def AlertEntity.markExpired (a : AlertEntity) : AlertEntity :=
  { a with status := AlertStatus.expired }

/-- A concrete valid active alert used as a base point for several claims. -/
def sampleAlert : AlertEntity :=
  { id := "a1"
    title := "T"
    message := "M"
    severity := AlertSeverity.info
    deliveryType := DeliveryType.inApp
    visibility := { type := VisibilityType.organization, targetIds := [] }
    startTime := 0
    expiryTime := 100
    reminderEnabled := true
    reminderFrequency := 2
    createdBy := "admin"
    createdAt := 0
    status := AlertStatus.active }

/-- The patch of C1's failing input: only startTime is provided, and the new
startTime 200 is at or beyond the current expiryTime 100. -/
def c1Patch : UpdateAlertRequest := { startTime := some 200 }

/-- Claim C1 (code bug evaluation): at the failing input, update() throws the
time-constraint error, yet the entity's startTime has already been changed to
the patched value 200 instead of keeping its pre-call value 0 — the patch is
rejected but the entity is not left unchanged. -/
theorem c1_update_rejects_but_mutates :
    (AlertEntity.update sampleAlert c1Patch 50).1 =
      Except.error ("Alert start time must be before expiry time") ∧
    (AlertEntity.update sampleAlert c1Patch 50).2.startTime = 200 ∧
    sampleAlert.startTime = 0 :=
  ⟨rfl, rfl, rfl⟩

/-- A concrete alert already in the terminal archived status. -/
def archivedAlert : AlertEntity := { sampleAlert with status := AlertStatus.archived }

/-- Claim C2 counterexample: markExpired() on an already-archived alert changes
its status from archived (a terminal status per the claim) to expired, so the
claimed monotonicity with terminal expired/archived does not hold. -/
theorem c2_status_not_terminal :
    archivedAlert.status = AlertStatus.archived ∧
    (AlertEntity.markExpired archivedAlert).status ≠ archivedAlert.status :=
  ⟨rfl, by decide⟩

/-- Claim C2 (amended): the entity operations enforce no monotonicity at all —
archive() always yields status archived and markExpired() always yields status
expired, whatever the prior status; and update() with a provided status field
(once its request validation passes) sets exactly that status, including back
to active from expired or archived. -/
theorem c2_status_transitions (a : AlertEntity) (r : UpdateAlertRequest)
    (now : Int) (s : AlertStatus)
    (hok : validateUpdateRequest r = Except.ok ())
    (hs : r.status = some s) :
    (AlertEntity.archive a).status = AlertStatus.archived ∧
    (AlertEntity.markExpired a).status = AlertStatus.expired ∧
    ((AlertEntity.update a r now).2).status = s := by
  refine ⟨rfl, rfl, ?_⟩
  unfold AlertEntity.update
  rw [hok]
  simp only [applyUpdate, hs]
  split <;> simp

/-- The patch of C2's witness: it only sets status back to active. -/
def c2Patch : UpdateAlertRequest := { status := some AlertStatus.active }

/-- Claim C2 witness: the amended theorem applied to the archived alert and a
patch that moves it back to active. -/
theorem c2_status_transitions_witness :
    validateUpdateRequest c2Patch = Except.ok () ∧
    ((AlertEntity.update archivedAlert c2Patch 50).2).status = AlertStatus.active :=
  ⟨rfl, (c2_status_transitions archivedAlert c2Patch 50 AlertStatus.active rfl rfl).2.2⟩

/-- The UserAlertState entity, from entities/UserAlertState.ts (class
UserAlertStateEntity fields). Optional dates are Option Int milliseconds. -/
structure UserAlertStateEntity where
  id : String
  userId : String
  alertId : String
  isRead : Bool
  isSnoozed : Bool
  snoozeUntil : Option Int
  lastDelivered : Option Int
  deliveryCount : Nat
  createdAt : Int
  updatedAt : Int
deriving DecidableEq, Repr

/-- UserAlertStateEntity.unsnooze (entities/UserAlertState.ts lines 92-96):
clears both snooze fields and bumps updatedAt to the current clock. -/
def UserAlertStateEntity.unsnooze (s : UserAlertStateEntity) (now : Int) :
    UserAlertStateEntity :=
  { s with isSnoozed := false, snoozeUntil := none, updatedAt := now }

/-- UserAlertStateEntity.isCurrentlySnoozed (entities/UserAlertState.ts lines
104-116): false when not snoozed; true on an indefinite snooze; for a timed
snooze, true exactly while now is before the deadline. -/
def UserAlertStateEntity.isCurrentlySnoozed (s : UserAlertStateEntity) (now : Int) : Bool :=
  if s.isSnoozed = false then false
  else
    match s.snoozeUntil with
    | none => true
    | some t => decide (now < t)

/-- UserAlertStateEntity.shouldReceiveReminder (entities/UserAlertState.ts
lines 118-120). -/
def UserAlertStateEntity.shouldReceiveReminder (s : UserAlertStateEntity) (now : Int) : Bool :=
  !(s.isCurrentlySnoozed now)

/-- UserAlertStateEntity.resetSnoozeIfExpired (entities/UserAlertState.ts
lines 145-151): when a timed snooze has expired, unsnoozes and returns true;
in every other case returns false and leaves the state untouched. Returns
(returned boolean, state after the call). -/
def UserAlertStateEntity.resetSnoozeIfExpired (s : UserAlertStateEntity) (now : Int) :
    Bool × UserAlertStateEntity :=
  match s.snoozeUntil with
  | some t => if s.isSnoozed && decide (t ≤ now) then (true, s.unsnooze now) else (false, s)
  | none => (false, s)

/-- Claim C9: resetSnoozeIfExpired is idempotent. A call that finds an expired
timed snooze returns true and clears the snooze axis (bumping updatedAt); an
immediately following call, at any clock, returns false and returns the state
with every field unchanged. -/
theorem c9_resetSnoozeIfExpired_idempotent (s : UserAlertStateEntity)
    (t now now2 : Int) (hsn : s.isSnoozed = true) (hsu : s.snoozeUntil = some t)
    (hexp : t ≤ now) :
    s.resetSnoozeIfExpired now = (true, s.unsnooze now) ∧
    (s.unsnooze now).isSnoozed = false ∧
    (s.unsnooze now).snoozeUntil = none ∧
    (s.unsnooze now).resetSnoozeIfExpired now2 = (false, s.unsnooze now) := by
  refine ⟨?_, rfl, rfl, rfl⟩
  simp [UserAlertStateEntity.resetSnoozeIfExpired, hsu, hsn, hexp]

/-- A concrete snoozed state whose timed snooze deadline 80 has passed at
clock 90. -/
def snoozedState : UserAlertStateEntity :=
  { id := "s1", userId := "u1", alertId := "a1", isRead := false, isSnoozed := true
    snoozeUntil := some 80, lastDelivered := none, deliveryCount := 0
    createdAt := 10, updatedAt := 10 }

/-- Claim C9 witness: the idempotence theorem at the concrete snoozed state. -/
theorem c9_resetSnoozeIfExpired_idempotent_witness :
    snoozedState.isSnoozed = true ∧ snoozedState.snoozeUntil = some 80 ∧ (80 : Int) ≤ 90 ∧
    ((snoozedState.unsnooze 90).resetSnoozeIfExpired 95 = (false, snoozedState.unsnooze 90)) :=
  ⟨rfl, rfl, by decide,
    (c9_resetSnoozeIfExpired_idempotent snoozedState 80 90 95 rfl rfl (by decide)).2.2.2⟩

/-- The per-user eligibility step of NotificationScheduler.processAlertReminders
(services/NotificationScheduler.ts lines 52-59): when no state row exists the
reminder is sent; otherwise the state is reconciled with resetSnoozeIfExpired
and the reminder is sent when shouldReceiveReminder() holds on the reconciled
state. stateOf models UserAlertStateRepository.findByUserAndAlert as a pure
lookup. -/
def sendNeeded (stateOf : String → String → Option UserAlertStateEntity)
    (now : Int) (alertId uid : String) : Bool :=
  match stateOf uid alertId with
  | none => true
  | some st => ((st.resetSnoozeIfExpired now).2).shouldReceiveReminder now

/-- NotificationScheduler.processAlertReminders (services/NotificationScheduler.ts
lines 48-64), over the recipient list of one alert. The loop body awaits
notificationService.sendNotification with no try/catch, so a rejection thrown
for one (alert, user) pair propagates and ends the loop; failing says which
pairs throw. Returns (pairs actually delivered, whether the loop ran to
completion). -/
def processAlertReminders (stateOf : String → String → Option UserAlertStateEntity)
    (failing : String → String → Bool) (now : Int) (alertId : String) :
    List String → List (String × String) × Bool
  | [] => ([], true)
  | u :: rest =>
    if sendNeeded stateOf now alertId u then
      if failing alertId u then ([], false)
      else
        let out := processAlertReminders stateOf failing now alertId rest
        ((alertId, u) :: out.1, out.2)
    else processAlertReminders stateOf failing now alertId rest

/-- One scheduler tick (the setInterval callback of NotificationScheduler.start,
services/NotificationScheduler.ts lines 30-38): iterates the active alerts,
awaiting processAlertReminders for each reminder-enabled alert with no
try/catch, so an error thrown inside one alert's loop also skips every later
alert of the tick. -/
def runTick (stateOf : String → String → Option UserAlertStateEntity)
    (failing : String → String → Bool) (now : Int) :
    List (AlertEntity × List String) → List (String × String) × Bool
  | [] => ([], true)
  | (a, us) :: rest =>
    if a.reminderEnabled then
      let out1 := processAlertReminders stateOf failing now a.id us
      if out1.2 then
        let out2 := runTick stateOf failing now rest
        (out1.1 ++ out2.1, out2.2)
      else (out1.1, false)
    else runTick stateOf failing now rest

/-- Claim C3 counterexample: one alert with recipients u1 and u2, no stored
state, and a delivery error thrown only for (a1, u1). The tick aborts with no
pair delivered — in particular u2, another recipient of the same alert, is
not processed — while the identical tick without the failure delivers to both
recipients. -/
theorem c3_failure_not_contained :
    runTick (fun _ _ => none) (fun _ u => decide (u = "u1")) 0 [(sampleAlert, ["u1", "u2"])] =
      ([], false) ∧
    runTick (fun _ _ => none) (fun _ _ => false) 0 [(sampleAlert, ["u1", "u2"])] =
      ([("a1", "u1"), ("a1", "u2")], true) :=
  ⟨rfl, rfl⟩

/-- Claim C3 (amended): a delivery error thrown for one (alert, user) pair is
not contained — it aborts the tick. For an alert whose recipient list is
us1 ++ uf :: us2, where delivery throws for uf (and for no earlier recipient)
and uf is due a reminder, the loop delivers exactly to the due recipients of
us1 and reports abortion; nobody in us2 is reached. -/
theorem c3_failure_aborts_rest (stateOf : String → String → Option UserAlertStateEntity)
    (failing : String → String → Bool) (now : Int) (a : AlertEntity)
    (us1 us2 : List String) (uf : String)
    (h1 : ∀ u ∈ us1, failing a.id u = false)
    (h2 : failing a.id uf = true)
    (h3 : sendNeeded stateOf now a.id uf = true) :
    processAlertReminders stateOf failing now a.id (us1 ++ uf :: us2) =
      ((us1.filter (fun u => sendNeeded stateOf now a.id u)).map (fun u => (a.id, u)), false) := by
  induction us1 with
  | nil =>
    simp [processAlertReminders, h3, h2]
  | cons u rest ih =>
    have hu : failing a.id u = false := h1 u (List.mem_cons_self u rest)
    have ih2 := ih (fun v hv => h1 v (List.mem_cons_of_mem u hv))
    by_cases hsn : sendNeeded stateOf now a.id u = true
    · simp [processAlertReminders, hsn, hu, ih2, List.filter_cons]
    · have hsn2 : sendNeeded stateOf now a.id u = false := by
        cases h : sendNeeded stateOf now a.id u
        · rfl
        · exact absurd h hsn
      simp [processAlertReminders, hsn2, ih2, List.filter_cons]

/-- Claim C3 witness: the abortion theorem at a concrete tick with one
successful recipient before the failing one and one after. -/
theorem c3_failure_aborts_rest_witness :
    (∀ u ∈ ["u0"], (fun (_ : String) (v : String) => decide (v = "u1")) "a1" u = false) ∧
    processAlertReminders (fun _ _ => none) (fun _ v => decide (v = "u1")) 0 "a1"
        (["u0"] ++ "u1" :: ["u2"]) = ([("a1", "u0")], false) :=
  ⟨by decide,
    c3_failure_aborts_rest (fun _ _ => none) (fun _ v => decide (v = "u1")) 0 sampleAlert
      ["u0"] ["u2"] "u1" (by decide) (by decide) (by decide)⟩

/-- Scheduler control state. NotificationScheduler (services/NotificationScheduler.ts)
holds only its service references and the interval handle; intervalSet models
whether the handle is set, and runningTicks counts tick callback bodies that
have begun and not yet completed. The class has no field that records an
in-flight tick. -/
structure SchedulerState where
  intervalSet : Bool
  runningTicks : Nat
deriving DecidableEq, Repr

/-- NotificationScheduler.start (services/NotificationScheduler.ts lines 24-39):
a second start() is a no-op while the interval handle is set; otherwise the
interval is installed. -/
def NotificationScheduler.start (s : SchedulerState) : SchedulerState :=
  if s.intervalSet then s else { s with intervalSet := true }

/-- A timer fire of the installed interval. The async callback passed to
setInterval begins executing on every fire: its body (lines 30-38) consults no
guard before running, so a fire that arrives while a previous tick body is
still awaiting simply starts another tick body. -/
def onTimerFire (s : SchedulerState) : SchedulerState :=
  if s.intervalSet then { s with runningTicks := s.runningTicks + 1 } else s

/-- Completion of one tick callback body. -/
def onTickComplete (s : SchedulerState) : SchedulerState :=
  { s with runningTicks := s.runningTicks - 1 }

/-- Claim C7 counterexample: after start(), two timer fires with no completion
between them leave two tick bodies executing at once — the second fire was not
skipped, so the claimed mutual exclusion (at most one executing tick) fails. -/
theorem c7_ticks_overlap :
    (onTimerFire (onTimerFire (NotificationScheduler.start ⟨false, 0⟩))).runningTicks = 2 ∧
    ¬ (2 ≤ 1) :=
  ⟨rfl, by decide⟩

/-- Preservation helper: a timer fire never changes whether the interval is
installed. -/
theorem onTimerFire_intervalSet (s : SchedulerState) :
    (onTimerFire s).intervalSet = s.intervalSet := by
  unfold onTimerFire
  split <;> rfl

/-- While the interval is installed, a timer fire increments the count of
executing tick bodies. -/
theorem onTimerFire_running (s : SchedulerState) (h : s.intervalSet = true) :
    (onTimerFire s).runningTicks = s.runningTicks + 1 := by
  unfold onTimerFire
  rw [h]
  simp

/-- Claim C7 (amended): the interval callback contains no busy guard, so every
fire begins a tick body; n consecutive fires with no completion in between
yield n concurrently executing ticks — overlapping ticks are not prevented. -/
theorem c7_every_fire_starts_a_tick (n : Nat) :
    (onTimerFire^[n] (NotificationScheduler.start ⟨false, 0⟩)).intervalSet = true ∧
    (onTimerFire^[n] (NotificationScheduler.start ⟨false, 0⟩)).runningTicks = n := by
  induction n with
  | zero => exact ⟨rfl, rfl⟩
  | succ k ih =>
    rw [Function.iterate_succ_apply']
    refine ⟨?_, ?_⟩
    · rw [onTimerFire_intervalSet]
      exact ih.1
    · rw [onTimerFire_running _ ih.1, ih.2]

/-- Modelled from the spec: the executable database schema is absent from the
implementation sources (only the pg Pool setup exists); the repository's
design document declares the alerts.severity column as
ENUM('info','warning','critical'). An enum column sorts by declaration
position, so this index is the sort key that ORDER BY severity applies,
with critical greatest. -/
def severityEnumIndex : AlertSeverity → Nat
  | AlertSeverity.info => 0
  | AlertSeverity.warning => 1
  | AlertSeverity.critical => 2

/-- The row order produced by ORDER BY severity DESC, created_at DESC in
AlertRepository.findAlertsForUser (repositories/AlertRepository.ts line 336):
a comes no later than b when a's severity key is greater, or the keys tie and
a's createdAt is no smaller. -/
def sqlBefore (a b : AlertEntity) : Prop :=
  severityEnumIndex b.severity < severityEnumIndex a.severity ∨
    (severityEnumIndex a.severity = severityEnumIndex b.severity ∧ b.createdAt ≤ a.createdAt)

instance : DecidableRel sqlBefore := fun a b => by
  unfold sqlBefore
  infer_instance

instance : IsTotal AlertEntity sqlBefore := by
  constructor
  intro a b
  unfold sqlBefore
  rcases Nat.lt_trichotomy (severityEnumIndex a.severity) (severityEnumIndex b.severity) with h | h | h
  · exact Or.inr (Or.inl h)
  · rcases Int.le_total b.createdAt a.createdAt with hle | hle
    · exact Or.inl (Or.inr ⟨h, hle⟩)
    · exact Or.inr (Or.inr ⟨h.symm, hle⟩)
  · exact Or.inl (Or.inl h)

instance : IsTrans AlertEntity sqlBefore := by
  constructor
  intro a b c hab hbc
  unfold sqlBefore at hab hbc ⊢
  rcases hab with h1 | ⟨he1, hd1⟩ <;> rcases hbc with h2 | ⟨he2, hd2⟩
  · exact Or.inl (Nat.lt_trans h2 h1)
  · exact Or.inl (he2 ▸ h1)
  · exact Or.inl (he1 ▸ h2)
  · exact Or.inr ⟨he1.trans he2, le_trans hd2 hd1⟩

/-- The WHERE clause of AlertRepository.findAlertsForUser (repositories/
AlertRepository.ts lines 328-337): status = active, start_time <= NOW(),
expiry_time > NOW(), and the OR of the three visibility clauses, each of which
tests its visibility type together with membership of the corresponding
candidate id in target_ids (the jsonb containment operator on the stored
array). -/
def alertRowMatches (a : AlertEntity) (now : Int) (userId teamId organizationId : String) : Bool :=
  decide (a.status = AlertStatus.active) &&
  decide (a.startTime ≤ now) &&
  decide (now < a.expiryTime) &&
  ((decide (a.visibility.type = VisibilityType.organization) &&
      a.visibility.targetIds.contains organizationId) ||
   (decide (a.visibility.type = VisibilityType.team) &&
      a.visibility.targetIds.contains teamId) ||
   (decide (a.visibility.type = VisibilityType.user) &&
      a.visibility.targetIds.contains userId))

/-- AlertRepository.findAlertsForUser (repositories/AlertRepository.ts lines
326-351), over a table of stored alert rows: SELECT rows matching the WHERE
clause, ORDER BY severity DESC, created_at DESC. -/
def findAlertsForUser (table : List AlertEntity) (now : Int)
    (userId teamId organizationId : String) : List AlertEntity :=
  List.insertionSort sqlBefore
    (table.filter (fun a => alertRowMatches a now userId teamId organizationId))

/-- Claim C5: findAlertsForUser returns exactly the active alerts whose window
contains now and that match at least one visibility clause; each stored alert
id appears at most once (the table's ids are unique, as the id column is the
primary key); and the rows come sorted by severity descending (per the enum
sort key) then createdAt descending. -/
theorem c5_findAlertsForUser_spec (table : List AlertEntity) (now : Int)
    (uid tid oid : String) (hnd : (table.map AlertEntity.id).Nodup) :
    (∀ a, a ∈ findAlertsForUser table now uid tid oid ↔
      a ∈ table ∧ alertRowMatches a now uid tid oid = true) ∧
    ((findAlertsForUser table now uid tid oid).map AlertEntity.id).Nodup ∧
    List.Sorted sqlBefore (findAlertsForUser table now uid tid oid) := by
  refine ⟨?_, ?_, List.sorted_insertionSort sqlBefore _⟩
  · intro a
    unfold findAlertsForUser
    rw [List.mem_insertionSort, List.mem_filter]
  · have hperm := List.perm_insertionSort sqlBefore
      (table.filter (fun a => alertRowMatches a now uid tid oid))
    have hsub : (table.filter (fun a => alertRowMatches a now uid tid oid)).Sublist table :=
      List.filter_sublist table
    have hmap := hsub.map AlertEntity.id
    have hnd2 := hnd.sublist hmap
    unfold findAlertsForUser
    exact ((hperm.map AlertEntity.id).nodup_iff).mpr hnd2

/-- Claim C4 counterexample: sampleAlert is organization-scoped with empty
targetIds, active, and inside its time window at clock 50, yet
findAlertsForUser returns nothing for an organization candidate — the jsonb
membership test on an empty stored array matches no organization id. -/
theorem c4_org_alert_empty_targets_not_returned :
    sampleAlert.visibility.type = VisibilityType.organization ∧
    sampleAlert.visibility.targetIds = [] ∧
    sampleAlert.status = AlertStatus.active ∧
    sampleAlert.startTime ≤ 50 ∧
    (50 : Int) < sampleAlert.expiryTime ∧
    findAlertsForUser [sampleAlert] 50 "u1" "t1" "org1" = [] :=
  ⟨rfl, rfl, rfl, by decide, by decide, rfl⟩

/-- Claim C4 (amended): the organization clause of findAlertsForUser requires
the candidate's organizationId to occur in the alert's stored targetIds, so an
organization-scoped alert is returned for a candidate only when that holds —
and one with empty targetIds is returned for no candidate. -/
theorem c4_org_match_requires_targetId (table : List AlertEntity) (now : Int)
    (uid tid oid : String) (a : AlertEntity)
    (ht : a.visibility.type = VisibilityType.organization)
    (hmem : a ∈ findAlertsForUser table now uid tid oid) :
    a.visibility.targetIds.contains oid = true := by
  unfold findAlertsForUser at hmem
  rw [List.mem_insertionSort, List.mem_filter] at hmem
  have hm := hmem.2
  simp only [alertRowMatches, ht] at hm
  simp at hm
  simpa using hm.2

/-- An organization-scoped alert whose targetIds carry the organization id. -/
def orgTargetedAlert : AlertEntity :=
  { sampleAlert with
    visibility := { type := VisibilityType.organization, targetIds := ["org1"] } }

/-- Claim C4 witness: the amended theorem at a concrete store where the
organization alert is returned for an org1 candidate, whose id indeed occurs
in the alert's targetIds. -/
theorem c4_org_match_requires_targetId_witness :
    orgTargetedAlert.visibility.type = VisibilityType.organization ∧
    orgTargetedAlert ∈ findAlertsForUser [orgTargetedAlert] 50 "u1" "t1" "org1" ∧
    orgTargetedAlert.visibility.targetIds.contains ("org1") = true :=
  ⟨rfl, by decide,
    c4_org_match_requires_targetId [orgTargetedAlert] 50 "u1" "t1" "org1" orgTargetedAlert
      rfl (by decide)⟩

/-- A critical alert and a warning alert stored together, both active. -/
def criticalAlert : AlertEntity :=
  { sampleAlert with
    id := "ac"
    severity := AlertSeverity.critical
    visibility := { type := VisibilityType.user, targetIds := ["u1"] } }

/-- Claim C5 witness: the query characterisation applied to a concrete
two-alert store with distinct ids. -/
theorem c5_findAlertsForUser_spec_witness :
    (([criticalAlert, orgTargetedAlert].map AlertEntity.id).Nodup) ∧
    (∀ a, a ∈ findAlertsForUser [criticalAlert, orgTargetedAlert] 50 "u1" "t1" "org1" ↔
      a ∈ [criticalAlert, orgTargetedAlert] ∧ alertRowMatches a 50 "u1" "t1" "org1" = true) ∧
    ((findAlertsForUser [criticalAlert, orgTargetedAlert] 50 "u1" "t1" "org1").map
        AlertEntity.id).Nodup ∧
    List.Sorted sqlBefore (findAlertsForUser [criticalAlert, orgTargetedAlert] 50 "u1" "t1" "org1") :=
  ⟨by decide, c5_findAlertsForUser_spec [criticalAlert, orgTargetedAlert] 50 "u1" "t1" "org1" (by decide)⟩

/-- The capped exponential delay of BaseDeliveryStrategy.calculateNextRetryTime
(delivery/BaseDeliveryStrategy.ts lines 237-240):
min(baseDelay * backoffMultiplier ^ (attemptNumber - 1), maxDelay), over the
rationals. -/
def calculateDelay (baseDelay backoffMultiplier maxDelay : ℚ) (attemptNumber : Nat) : ℚ :=
  min (baseDelay * backoffMultiplier ^ (attemptNumber - 1)) maxDelay

/-- The jitter added in BaseDeliveryStrategy.calculateNextRetryTime (line 243):
delay * jitterFactor * r, where r stands for the Math.random() draw in [0, 1). -/
def jitterAmount (delay jitterFactor r : ℚ) : ℚ :=
  delay * jitterFactor * r

/-- BaseDeliveryStrategy.calculateNextRetryTime (delivery/BaseDeliveryStrategy.ts
lines 235-247): the next retry instant is now plus the capped delay plus
jitter. -/
def calculateNextRetryTime (now baseDelay backoffMultiplier maxDelay jitterFactor r : ℚ)
    (attemptNumber : Nat) : ℚ :=
  let delay := calculateDelay baseDelay backoffMultiplier maxDelay attemptNumber
  now + (delay + jitterAmount delay jitterFactor r)

/-- Claim C6 counterexample: with base 1000, factor 2, maxDelay 30000, the
delay of the 5th failed attempt is 1000 * 2^4 = 16000, strictly below the
30000 cap — so the delay is not capped at 30000 from the 5th attempt onward. -/
theorem c6_fifth_attempt_below_cap :
    calculateDelay 1000 2 30000 5 = 16000 ∧ (16000 : ℚ) ≠ 30000 := by
  constructor
  · unfold calculateDelay
    norm_num
  · norm_num

/-- Claim C6 (amended): with base 1000, factor 2, maxDelay 30000, the cap
binds from the 6th failed attempt onward: every such delay equals 30000, and
for any positive jitterFactor and any random draw r in [0, 1) the jitter is
non-negative and strictly below jitterFactor times the capped delay. -/
theorem c6_delay_capped_from_sixth (n : Nat) (jf r : ℚ) (hn : 6 ≤ n)
    (hjf : 0 < jf) (hr0 : 0 ≤ r) (hr1 : r < 1) :
    calculateDelay 1000 2 30000 n = 30000 ∧
    0 ≤ jitterAmount (calculateDelay 1000 2 30000 n) jf r ∧
    jitterAmount (calculateDelay 1000 2 30000 n) jf r <
      jf * calculateDelay 1000 2 30000 n := by
  have h5 : 5 ≤ n - 1 := by omega
  have hpow : (2 : ℚ) ^ 5 ≤ (2 : ℚ) ^ (n - 1) := by
    apply pow_le_pow_right₀ (by norm_num) h5
  have hbig : (30000 : ℚ) ≤ 1000 * 2 ^ (n - 1) := by
    have : (1000 : ℚ) * 2 ^ 5 ≤ 1000 * 2 ^ (n - 1) := by
      apply mul_le_mul_of_nonneg_left hpow (by norm_num)
    calc (30000 : ℚ) ≤ 1000 * 2 ^ 5 := by norm_num
      _ ≤ 1000 * 2 ^ (n - 1) := this
  have hd : calculateDelay 1000 2 30000 n = 30000 := by
    unfold calculateDelay
    exact min_eq_right hbig
  refine ⟨hd, ?_, ?_⟩
  · rw [hd]
    unfold jitterAmount
    have := mul_nonneg (mul_nonneg (by norm_num : (0:ℚ) ≤ 30000) hjf.le) hr0
    exact this
  · rw [hd]
    unfold jitterAmount
    have hpos : (0 : ℚ) < 30000 * jf := by positivity
    have h1 : 30000 * jf * r < 30000 * jf * 1 := by
      exact mul_lt_mul_of_pos_left hr1 hpos
    rw [mul_one] at h1
    calc 30000 * jf * r < 30000 * jf := h1
      _ = jf * 30000 := mul_comm _ _

/-- Claim C6 witness: the amended theorem at the 6th attempt with
jitterFactor 1/10 (the configured default) and random draw 1/2. -/
theorem c6_delay_capped_from_sixth_witness :
    (6 ≤ 6) ∧ (0 : ℚ) < 1/10 ∧ (0 : ℚ) ≤ 1/2 ∧ (1/2 : ℚ) < 1 ∧
    (calculateDelay 1000 2 30000 6 = 30000 ∧
     0 ≤ jitterAmount (calculateDelay 1000 2 30000 6) (1/10) (1/2) ∧
     jitterAmount (calculateDelay 1000 2 30000 6) (1/10) (1/2) <
       (1/10) * calculateDelay 1000 2 30000 6) :=
  ⟨by norm_num, by norm_num, by norm_num, by norm_num,
    c6_delay_capped_from_sixth 6 (1/10) (1/2) (by norm_num) (by norm_num)
      (by norm_num) (by norm_num)⟩

/-- Delivery status enum, from models/enums.ts. -/
inductive DeliveryStatus where
  | pending
  | delivered
  | failed
deriving DecidableEq, Repr

/-- User record, from models/User.ts. -/
structure User where
  id : String
  name : String
  email : String
  teamId : String
  organizationId : String
  isActive : Bool
deriving DecidableEq, Repr

/-- Notification payload, from models/Notification.ts. -/
structure Notification where
  id : String
  alertId : String
  userId : String
  title : String
  message : String
  severity : AlertSeverity
  deliveryType : DeliveryType
  timestamp : Int
deriving DecidableEq, Repr

/-- Validation outcome, from delivery/IDeliveryStrategy.ts ValidationResult. -/
structure ValidationResult where
  isValid : Bool
  errors : List String
  warnings : List String
deriving DecidableEq, Repr

/-- Retry configuration, from delivery/IDeliveryStrategy.ts; the numeric fields
are rationals since the source computes over JS numbers. -/
structure RetryConfiguration where
  maxAttempts : Nat
  baseDelay : ℚ
  backoffMultiplier : ℚ
  maxDelay : ℚ
  jitterFactor : ℚ
deriving DecidableEq, Repr

/-- Rate limit configuration, from delivery/IDeliveryStrategy.ts. -/
structure RateLimitConfiguration where
  maxRequests : Nat
  windowMs : Int
  queueOnLimit : Bool
deriving DecidableEq, Repr

/-- Channel configuration, from delivery/IDeliveryStrategy.ts
DeliveryConfiguration. -/
structure DeliveryConfiguration where
  name : String
  enabled : Bool
  maxConcurrency : Nat
  timeout : Int
  retryConfig : RetryConfiguration
  rateLimiting : RateLimitConfiguration
deriving DecidableEq, Repr

/-- Plain delivery result, from models/Notification.ts DeliveryResult. -/
structure DeliveryResult where
  success : Bool
  deliveryId : String
  timestamp : Int
  errorMessage : Option String
deriving DecidableEq, Repr

/-- Enriched delivery result, from delivery/IDeliveryStrategy.ts
EnhancedDeliveryResult. -/
structure EnhancedDeliveryResult where
  success : Bool
  deliveryId : String
  timestamp : Int
  errorMessage : Option String
  status : DeliveryStatus
  channel : DeliveryType
  attemptNumber : Nat
  processingTime : Int
  shouldRetry : Bool
  nextRetryTime : ℚ
deriving DecidableEq, Repr

/-- JS String.prototype.toLowerCase over the character data. -/
def toLowerStr (s : String) : String :=
  ⟨s.data.map Char.toLower⟩

/-- JS String.prototype.includes over character data: some suffix of the
haystack starts with the needle. -/
def listContains (hay needle : List Char) : Bool :=
  match hay with
  | [] => needle.isEmpty
  | c :: t => needle.isPrefixOf (c :: t) || listContains t needle

/-- String containment test used by shouldRetryDelivery. -/
def strIncludes (hay needle : String) : Bool :=
  listContains hay.data needle.data

/-- The terminal error list of BaseDeliveryStrategy.shouldRetryDelivery
(delivery/BaseDeliveryStrategy.ts lines 220-226). -/
def nonRetryableErrors : List String :=
  ["validation failed", "user not active", "invalid email", "invalid phone number",
   "user not found"]

/-- BaseDeliveryStrategy.shouldRetryDelivery (delivery/BaseDeliveryStrategy.ts
lines 214-230): false with no message; otherwise true unless the lowercased
message contains one of the terminal error phrases. -/
def shouldRetryDelivery (errorMessage : Option String) : Bool :=
  match errorMessage with
  | none => false
  | some msg => !(nonRetryableErrors.any (fun e => strIncludes (toLowerStr msg) e))

/-- BaseDeliveryStrategy.validateDelivery (delivery/BaseDeliveryStrategy.ts
lines 60-104): collects the error strings in source order, appends the
strategy-specific errors, and is valid exactly when no error was collected. -/
def validateDelivery (strategySpecific : ValidationResult) (n : Notification) (u : User) :
    ValidationResult :=
  let errors :=
    (if (jsTrim n.id).length = 0 then ["Notification ID is required"] else []) ++
    (if (jsTrim n.title).length = 0 then ["Notification title is required"] else []) ++
    (if (jsTrim n.message).length = 0 then ["Notification message is required"] else []) ++
    (if n.title ≠ "" ∧ n.title.length > 255 then ["Notification title is too long"] else []) ++
    (if n.message ≠ "" ∧ n.message.length > 5000 then ["Notification message is too long"] else []) ++
    (if (jsTrim u.id).length = 0 then ["User ID is required"] else []) ++
    (if u.isActive = false then ["User is not active"] else []) ++
    strategySpecific.errors
  { isValid := errors.isEmpty, errors := errors, warnings := strategySpecific.warnings }

/-- BaseDeliveryStrategy.checkRateLimit (delivery/BaseDeliveryStrategy.ts lines
182-199): the recorded timestamps inside the sliding window must number below
the configured maximum. The tracker maps a user id to its recorded
timestamps. -/
def checkRateLimit (cfg : DeliveryConfiguration) (tracker : String → List Int)
    (userId : String) (now : Int) : Bool :=
  decide (((tracker userId).filter
    (fun t => now - t < cfg.rateLimiting.windowMs)).length < cfg.rateLimiting.maxRequests)

/-- BaseDeliveryStrategy.canDeliver (delivery/BaseDeliveryStrategy.ts lines
37-48): active user, rate limit not exhausted, and the strategy-specific user
check (validateUserForDelivery), whose outcome is the userDeliverable flag. -/
def canDeliver (cfg : DeliveryConfiguration) (userDeliverable : Bool)
    (tracker : String → List Int) (u : User) (now : Int) : Bool :=
  u.isActive && checkRateLimit cfg tracker u.id now && userDeliverable

/-- BaseDeliveryStrategy.recordRateLimitUsage (delivery/BaseDeliveryStrategy.ts
lines 204-209): appends the current timestamp to the user's window. -/
def recordRateLimitUsage (tracker : String → List Int) (userId : String) (now : Int) :
    String → List Int :=
  fun uid => if uid = userId then tracker userId ++ [now] else tracker uid

/-- BaseDeliveryStrategy.createFailureResult (delivery/BaseDeliveryStrategy.ts
lines 252-271). -/
def createFailureResult (cfg : DeliveryConfiguration) (channel : DeliveryType)
    (n : Notification) (errorMessage : String) (startTime nowEnd : Int)
    (attemptNumber : Nat) (r : ℚ) : EnhancedDeliveryResult :=
  { success := false
    deliveryId := "failed-" ++ n.id ++ "-" ++ toString nowEnd
    timestamp := nowEnd
    errorMessage := some errorMessage
    status := DeliveryStatus.failed
    channel := channel
    attemptNumber := attemptNumber
    processingTime := nowEnd - startTime
    shouldRetry := shouldRetryDelivery (some errorMessage)
    nextRetryTime := calculateNextRetryTime (nowEnd : ℚ) cfg.retryConfig.baseDelay
      cfg.retryConfig.backoffMultiplier cfg.retryConfig.maxDelay
      cfg.retryConfig.jitterFactor r attemptNumber }

/-- BaseDeliveryStrategy.deliverWithMetrics (delivery/BaseDeliveryStrategy.ts
lines 109-163). Validation failure and canDeliver failure return early without
touching the rate-limit tracker; otherwise the usage is recorded and then
deliver() runs — its outcome (a result, or a thrown message caught by the
surrounding try) is the deliverOutcome parameter, and in both cases the
recorded usage persists. startTime and nowEnd model the Date.now() readings at
entry and after validation, r the Math.random() draw. -/
def deliverWithMetrics (cfg : DeliveryConfiguration) (channel : DeliveryType)
    (strategySpecific : ValidationResult) (userDeliverable : Bool)
    (deliverOutcome : Except String DeliveryResult)
    (tracker : String → List Int) (n : Notification) (u : User)
    (startTime nowEnd : Int) (r : ℚ) : EnhancedDeliveryResult × (String → List Int) :=
  if (validateDelivery strategySpecific n u).isValid = false then
    (createFailureResult cfg channel n
      ("Validation failed: " ++ String.intercalate (", ") (validateDelivery strategySpecific n u).errors)
      startTime nowEnd 1 r, tracker)
  else if canDeliver cfg userDeliverable tracker u nowEnd = false then
    (createFailureResult cfg channel n ("Delivery not possible for this user") startTime nowEnd 1 r,
      tracker)
  else
    match deliverOutcome with
    | Except.ok result =>
      ({ success := result.success
         deliveryId := result.deliveryId
         timestamp := result.timestamp
         errorMessage := result.errorMessage
         status := if result.success then DeliveryStatus.delivered else DeliveryStatus.failed
         channel := channel
         attemptNumber := 1
         processingTime := nowEnd - startTime
         shouldRetry := (!result.success) && shouldRetryDelivery result.errorMessage
         nextRetryTime := calculateNextRetryTime (nowEnd : ℚ) cfg.retryConfig.baseDelay
           cfg.retryConfig.backoffMultiplier cfg.retryConfig.maxDelay
           cfg.retryConfig.jitterFactor r 1 },
       recordRateLimitUsage tracker u.id nowEnd)
    | Except.error msg =>
      (createFailureResult cfg channel n msg startTime nowEnd 1 r,
       recordRateLimitUsage tracker u.id nowEnd)

/-- A prefix of a list is still a prefix after appending to the right. -/
theorem isPrefixOf_append (l1 : List Char) : ∀ (l2 l3 : List Char),
    l1.isPrefixOf l2 = true → l1.isPrefixOf (l2 ++ l3) = true := by
  induction l1 with
  | nil =>
    intro l2 l3 _
    simp only [List.isPrefixOf]
  | cons a as ih =>
    intro l2 l3 h
    cases l2 with
    | nil =>
      simp only [List.isPrefixOf] at h
      exact Bool.noConfusion h
    | cons b bs =>
      simp only [List.cons_append, List.isPrefixOf, Bool.and_eq_true] at h ⊢
      exact ⟨h.1, ih bs l3 h.2⟩

/-- A needle that is a prefix of the haystack is contained in it. -/
theorem listContains_of_isPrefixOf (hay needle : List Char)
    (h : needle.isPrefixOf hay = true) : listContains hay needle = true := by
  cases hay with
  | nil =>
    cases needle with
    | nil => rfl
    | cons c cs =>
      simp only [List.isPrefixOf] at h
      exact Bool.noConfusion h
  | cons c t =>
    unfold listContains
    rw [h]
    rfl

/-- Any message of the form "Validation failed: " followed by detail is
classified non-retryable by shouldRetryDelivery: its lowercasing contains the
terminal phrase. -/
theorem shouldRetryDelivery_validation (s : String) :
    shouldRetryDelivery (some ("Validation failed: " ++ s)) = false := by
  have hdata : ("Validation failed: " ++ s).data = "Validation failed: ".data ++ s.data := by
    cases s
    rfl
  have hlower : (toLowerStr ("Validation failed: " ++ s)).data =
      "validation failed: ".data ++ s.data.map Char.toLower := by
    show ("Validation failed: " ++ s).data.map Char.toLower =
      "validation failed: ".data ++ s.data.map Char.toLower
    rw [hdata, List.map_append]
    congr 1
  have hpre : ("validation failed".data).isPrefixOf
      ((toLowerStr ("Validation failed: " ++ s)).data) = true := by
    rw [hlower]
    apply isPrefixOf_append
    decide
  have hcont : strIncludes (toLowerStr ("Validation failed: " ++ s)) "validation failed" = true :=
    listContains_of_isPrefixOf _ _ hpre
  unfold shouldRetryDelivery
  simp only [nonRetryableErrors, List.any_cons, hcont, Bool.true_or, Bool.not_true]

set_option maxHeartbeats 2000000 in
/-- Claim C8: when validateDelivery reports isValid = false, deliverWithMetrics
returns a failure result with shouldRetry = false (the message carries the
terminal "Validation failed" phrase) and leaves the rate-limit tracker exactly
as it was — no slot is consumed and no retry is recommended. -/
theorem c8_invalid_shortcircuits (cfg : DeliveryConfiguration) (channel : DeliveryType)
    (strat : ValidationResult) (udel : Bool) (out : Except String DeliveryResult)
    (tracker : String → List Int) (n : Notification) (u : User)
    (st ne : Int) (r : ℚ)
    (hval : (validateDelivery strat n u).isValid = false) :
    (deliverWithMetrics cfg channel strat udel out tracker n u st ne r).1.success = false ∧
    (deliverWithMetrics cfg channel strat udel out tracker n u st ne r).1.shouldRetry = false ∧
    (deliverWithMetrics cfg channel strat udel out tracker n u st ne r).2 = tracker := by
  have hres : deliverWithMetrics cfg channel strat udel out tracker n u st ne r =
      (createFailureResult cfg channel n
        ("Validation failed: " ++ String.intercalate (", ") (validateDelivery strat n u).errors)
        st ne 1 r, tracker) := by
    unfold deliverWithMetrics
    rw [if_pos hval]
  rw [hres]
  refine ⟨rfl, ?_, rfl⟩
  show shouldRetryDelivery
      (some ("Validation failed: " ++ String.intercalate (", ") (validateDelivery strat n u).errors)) =
    false
  exact shouldRetryDelivery_validation _

/-- An empty per-user rate-limit tracker. -/
def emptyTracker : String → List Int := fun _ => []

/-- The strategy-specific validation of a strategy that adds no checks
(the base default of validateStrategySpecific). -/
def okStrategyValidation : ValidationResult := { isValid := true, errors := [], warnings := [] }

/-- A notification with a blank title, which validateDelivery rejects. -/
def blankTitleNotification : Notification :=
  { id := "n1", alertId := "a1", userId := "u1", title := "", message := "hello"
    severity := AlertSeverity.info, deliveryType := DeliveryType.inApp, timestamp := 0 }

/-- An active user. -/
def activeUser : User :=
  { id := "u1", name := "N", email := "e@x", teamId := "t1", organizationId := "org1"
    isActive := true }

/-- The base-default delivery configuration of BaseDeliveryStrategy
(mergeWithDefaults, delivery/BaseDeliveryStrategy.ts lines 276-300). -/
def defaultConfiguration : DeliveryConfiguration :=
  { name := "base"
    enabled := true
    maxConcurrency := 10
    timeout := 30000
    retryConfig :=
      { maxAttempts := 3, baseDelay := 1000, backoffMultiplier := 2, maxDelay := 30000
        jitterFactor := 1/10 }
    rateLimiting := { maxRequests := 100, windowMs := 60000, queueOnLimit := false } }

/-- Claim C8 witness: the short-circuit theorem at a concrete invalid
notification (blank title). -/
theorem c8_invalid_shortcircuits_witness :
    (validateDelivery okStrategyValidation blankTitleNotification activeUser).isValid = false ∧
    ((deliverWithMetrics defaultConfiguration DeliveryType.inApp okStrategyValidation true
        (Except.ok { success := true, deliveryId := "d1", timestamp := 7, errorMessage := none })
        emptyTracker blankTitleNotification activeUser 3 7 0).1.success = false ∧
     (deliverWithMetrics defaultConfiguration DeliveryType.inApp okStrategyValidation true
        (Except.ok { success := true, deliveryId := "d1", timestamp := 7, errorMessage := none })
        emptyTracker blankTitleNotification activeUser 3 7 0).1.shouldRetry = false ∧
     (deliverWithMetrics defaultConfiguration DeliveryType.inApp okStrategyValidation true
        (Except.ok { success := true, deliveryId := "d1", timestamp := 7, errorMessage := none })
        emptyTracker blankTitleNotification activeUser 3 7 0).2 = emptyTracker) :=
  ⟨by decide,
    c8_invalid_shortcircuits defaultConfiguration DeliveryType.inApp okStrategyValidation true
      (Except.ok { success := true, deliveryId := "d1", timestamp := 7, errorMessage := none })
      emptyTracker blankTitleNotification activeUser 3 7 0 (by decide)⟩

/-- Claim C10: when validation passes and canDeliver holds, deliverWithMetrics
records the rate-limit usage before deliver() runs, so whatever deliver()'s
outcome — success, reported failure, or a thrown error — the returned tracker
carries the freshly appended timestamp on the user's window. -/
theorem c10_rate_limit_recorded (cfg : DeliveryConfiguration) (channel : DeliveryType)
    (strat : ValidationResult) (udel : Bool) (out : Except String DeliveryResult)
    (tracker : String → List Int) (n : Notification) (u : User)
    (st ne : Int) (r : ℚ)
    (hval : (validateDelivery strat n u).isValid = true)
    (hcan : canDeliver cfg udel tracker u ne = true) :
    (deliverWithMetrics cfg channel strat udel out tracker n u st ne r).2 =
      recordRateLimitUsage tracker u.id ne ∧
    (deliverWithMetrics cfg channel strat udel out tracker n u st ne r).2 u.id =
      tracker u.id ++ [ne] := by
  have hbranch : (deliverWithMetrics cfg channel strat udel out tracker n u st ne r).2 =
      recordRateLimitUsage tracker u.id ne := by
    unfold deliverWithMetrics
    rw [if_neg (by rw [hval]; exact Bool.noConfusion),
        if_neg (by rw [hcan]; exact Bool.noConfusion)]
    cases out <;> rfl
  refine ⟨hbranch, ?_⟩
  rw [hbranch]
  unfold recordRateLimitUsage
  simp

/-- A valid notification. -/
def okNotification : Notification :=
  { blankTitleNotification with title := "Hi" }

/-- Claim C10 witness: the slot-consumption theorem at a concrete input whose
deliver() call throws — the tracker still gains the timestamp. -/
theorem c10_rate_limit_recorded_witness :
    (validateDelivery okStrategyValidation okNotification activeUser).isValid = true ∧
    canDeliver defaultConfiguration true emptyTracker activeUser 7 = true ∧
    (deliverWithMetrics defaultConfiguration DeliveryType.inApp okStrategyValidation true
      (Except.error ("connection reset")) emptyTracker okNotification activeUser 3 7 0).2 ("u1") =
      emptyTracker ("u1") ++ [7] :=
  ⟨by decide, by decide,
    (c10_rate_limit_recorded defaultConfiguration DeliveryType.inApp okStrategyValidation true
      (Except.error ("connection reset")) emptyTracker okNotification activeUser 3 7 0
      (by decide) (by decide)).2⟩
